import Mathlib

set_option maxRecDepth 100000

/-!
Shallow embedding of the two template-generator scripts of this repository:
`create-excel-templates.py` (the Template Batch Generator) and
`create-plan-comparison-template.py` (the Comparison Template Generator).

Workbooks are modelled as single worksheets (each script uses only the active
sheet): a sheet title, a cell grid addressed by (column number, row number)
with column A = 1, a column-width map, and the list of merged ranges.  Cell
styles carry exactly the attributes the scripts set (font, pattern fill,
alignment, border).  Style attributes a script never sets are `none`; the
boolean attributes the library defaults to a falsy value (bold, wrap_text)
are modelled as `false` when unset by the constructor call.

Script execution is modelled by a small-step interpreter over an explicit
effect trace (directory creation, pip install, file save, stdout print) and a
filesystem state (whether the templates directory exists, plus the saved
files as a path-keyed association list where saving overwrites).  The
environment records whether the spreadsheet library imports, whether the
on-demand pip install succeeds, and whether the library imports afterwards.
The script entry points also receive the process argv and environment
variables, which — like the Python scripts, which never read `sys.argv` or
`os.environ` — they ignore.
-/

/-- Font attributes, mirroring the `Font(...)` constructor calls in the
scripts: `bold`, `size`, `color`.  Attributes not passed are `none`
(`bold` defaults to false). -/
structure XFont where
  bold : Bool
  size : Option Nat
  color : Option String
deriving DecidableEq

/-- Pattern fill, mirroring `PatternFill(start_color=..., end_color=...,
fill_type=...)`. -/
structure XPatternFill where
  start_color : String
  end_color : String
  fill_type : String
deriving DecidableEq

/-- Alignment, mirroring `Alignment(horizontal=..., vertical=...,
wrap_text=...)`; `wrap_text` defaults to false when not passed. -/
structure XAlignment where
  horizontal : Option String
  vertical : Option String
  wrap_text : Bool
deriving DecidableEq

/-- One side of a border, mirroring `Side(style=...)`. -/
structure XSide where
  style : Option String
deriving DecidableEq

/-- A four-sided border, mirroring `Border(left=..., right=..., top=...,
bottom=...)`. -/
structure XBorder where
  left : XSide
  right : XSide
  top : XSide
  bottom : XSide
deriving DecidableEq

/-- A spreadsheet cell: a value plus the optional style attributes the
scripts assign.  A fresh cell has every field unset. -/
structure Cell where
  value : Option String
  font : Option XFont
  fill : Option XPatternFill
  alignment : Option XAlignment
  border : Option XBorder
deriving DecidableEq

/-- The fresh cell every grid position starts from. -/
def Cell.empty : Cell :=
  { value := none, font := none, fill := none, alignment := none, border := none }

/-- A worksheet: title, cell grid addressed by (column, row) with column
A = 1, column widths, and merged ranges. -/
structure Worksheet where
  title : String
  cells : Nat → Nat → Cell
  colWidths : Nat → Option Nat
  merges : List String

/-- The active sheet of a fresh `Workbook()`: openpyxl titles it "Sheet";
every cell is empty and no column width is set. -/
def emptyWorksheet : Worksheet :=
  { title := "Sheet", cells := fun _ _ => Cell.empty, colWidths := fun _ => none,
    merges := [] }

/-- Mutate the cell at (column `c`, row `r`), as the scripts do through
`ws[...]` / `sheet.cell(...)` attribute assignments. -/
def updateCell (ws : Worksheet) (c r : Nat) (f : Cell → Cell) : Worksheet :=
  { ws with cells := fun c2 r2 => if c2 = c ∧ r2 = r then f (ws.cells c r) else ws.cells c2 r2 }

/-- `ws.column_dimensions[X].width = w`. -/
def setWidth (ws : Worksheet) (c w : Nat) : Worksheet :=
  { ws with colWidths := fun c2 => if c2 = c then some w else ws.colWidths c2 }

/-- `style_header(cell, text="")` from `create-excel-templates.py`: sets the
header font, fill and alignment, and — only when `text` is truthy — the
value. -/
def style_header (ws : Worksheet) (c r : Nat) (text : String) : Worksheet :=
  updateCell ws c r fun cell =>
    let cell := { cell with
      font := some { bold := true, size := some 12, color := some "FFFFFF" },
      fill := some { start_color := "366092", end_color := "366092", fill_type := "solid" },
      alignment := some { horizontal := some "center", vertical := some "center",
                          wrap_text := false } }
    if text ≠ "" then { cell with value := some text } else cell

/-- `style_data(cell, value="")` from `create-excel-templates.py`: sets the
data alignment, and — only when `value` is truthy — the value. -/
def style_data (ws : Worksheet) (c r : Nat) (value : String) : Worksheet :=
  updateCell ws c r fun cell =>
    let cell := { cell with
      alignment := some { horizontal := some "left", vertical := some "center",
                          wrap_text := false } }
    if value ≠ "" then { cell with value := some value } else cell

/-- Template 1 of the batch script: `personal-form.xlsx`, sheet
"Personal Info"; headers A1..C1, blank data rows 2..9, widths 20/20/30. -/
def personalForm : Worksheet :=
  let ws := { emptyWorksheet with title := "Personal Info" }
  let ws := style_header ws 1 1 "First Name"
  let ws := style_header ws 2 1 "Last Name"
  let ws := style_header ws 3 1 "Email"
  let ws := (List.range' 2 8).foldl (fun ws row =>
    let ws := style_data ws 1 row ""
    let ws := style_data ws 2 row ""
    style_data ws 3 row "") ws
  let ws := setWidth ws 1 20
  let ws := setWidth ws 2 20
  setWidth ws 3 30

/-- Template 2 of the batch script: `employee-roster.xlsx`, sheet
"Employees"; headers A1..E1, blank data rows 2..51, widths 15/18/18/25/20. -/
def employeeRoster : Worksheet :=
  let ws := { emptyWorksheet with title := "Employees" }
  let ws := style_header ws 1 1 "Employee ID"
  let ws := style_header ws 2 1 "First Name"
  let ws := style_header ws 3 1 "Last Name"
  let ws := style_header ws 4 1 "Email"
  let ws := style_header ws 5 1 "Department"
  let ws := (List.range' 2 50).foldl (fun ws row =>
    [1, 2, 3, 4, 5].foldl (fun ws col => style_data ws col row "") ws) ws
  let ws := setWidth ws 1 15
  let ws := setWidth ws 2 18
  let ws := setWidth ws 3 18
  let ws := setWidth ws 4 25
  setWidth ws 5 20

/-- Template 3 of the batch script: `invoice-template.xlsx`, sheet
"Invoice"; a merged title row, header/data pairs, line items rows 7..26,
summary rows 28..30, widths 25/15/15/15. -/
def invoiceTemplate : Worksheet :=
  let ws := { emptyWorksheet with title := "Invoice" }
  let ws := updateCell ws 1 1 fun cell =>
    { cell with value := some "INVOICE",
                font := some { bold := true, size := some 16, color := none } }
  let ws := { ws with merges := ws.merges ++ ["A1:D1"] }
  let ws := style_header ws 1 3 "Invoice #"
  let ws := style_data ws 2 3 ""
  let ws := style_header ws 3 3 "Invoice Date"
  let ws := style_data ws 4 3 ""
  let ws := style_header ws 1 4 "Due Date"
  let ws := style_data ws 2 4 ""
  let ws := style_header ws 3 4 "Customer"
  let ws := style_data ws 4 4 ""
  let ws := style_header ws 1 6 "Description"
  let ws := style_header ws 2 6 "Quantity"
  let ws := style_header ws 3 6 "Unit Price"
  let ws := style_header ws 4 6 "Total"
  let ws := (List.range' 7 20).foldl (fun ws row =>
    [1, 2, 3, 4].foldl (fun ws col => style_data ws col row "") ws) ws
  let ws := style_header ws 1 28 "Subtotal"
  let ws := style_data ws 2 28 ""
  let ws := style_header ws 1 29 "Tax"
  let ws := style_data ws 2 29 ""
  let ws := style_header ws 1 30 "TOTAL"
  let ws := updateCell ws 2 30 fun cell =>
    { cell with font := some { bold := true, size := some 12, color := none },
                fill := some { start_color := "E8F4EA", end_color := "E8F4EA",
                               fill_type := "solid" } }
  let ws := setWidth ws 1 25
  let ws := setWidth ws 2 15
  let ws := setWidth ws 3 15
  setWidth ws 4 15

/-- Template 4 of the batch script: `template.xlsx`, sheet "Data"; range
headers A1..C1, placeholder rows 2..6, row headers B10..E10, a matrix
example at rows 13..15, widths 20/15/15/15/15. -/
def genericTemplate : Worksheet :=
  let ws := { emptyWorksheet with title := "Data" }
  let ws := style_header ws 1 1 "Item Names"
  let ws := style_header ws 2 1 "Item Prices"
  let ws := style_header ws 3 1 "Item Code"
  let ws := (List.range' 2 5).foldl (fun ws row =>
    let ws := style_data ws 1 row ""
    let ws := style_data ws 2 row ""
    style_data ws 3 row "") ws
  let ws := style_header ws 2 10 "Header 1"
  let ws := style_header ws 3 10 "Header 2"
  let ws := style_header ws 4 10 "Header 3"
  let ws := style_header ws 5 10 "Header 4"
  let ws := updateCell ws 1 12 fun cell =>
    { cell with value := some "Matrix Example" }
  let ws := updateCell ws 1 12 fun cell =>
    { cell with font := some { bold := true, size := none, color := none } }
  let ws := (List.range' 13 3).foldl (fun ws row =>
    [1, 2, 3].foldl (fun ws col => style_data ws col row "") ws) ws
  let ws := setWidth ws 1 20
  let ws := setWidth ws 2 15
  let ws := setWidth ws 3 15
  let ws := setWidth ws 4 15
  setWidth ws 5 15

/-- Template 5 of the batch script: `employee-table.xlsx`, sheet "Roster";
a description cell at A1, headers at row 2, blank data rows 3..24, widths
12/22/20/15. -/
def employeeTable : Worksheet :=
  let ws := { emptyWorksheet with title := "Roster" }
  let ws := updateCell ws 1 1 fun cell =>
    { cell with value := some "Employee Information" }
  let ws := updateCell ws 1 1 fun cell =>
    { cell with font := some { bold := true, size := some 12, color := none } }
  let ws := style_header ws 1 2 "ID"
  let ws := style_header ws 2 2 "Name"
  let ws := style_header ws 3 2 "Department"
  let ws := style_header ws 4 2 "Salary"
  let ws := (List.range' 3 22).foldl (fun ws row =>
    [1, 2, 3, 4].foldl (fun ws col => style_data ws col row "") ws) ws
  let ws := setWidth ws 1 12
  let ws := setWidth ws 2 22
  let ws := setWidth ws 3 20
  setWidth ws 4 15

/-- Header fill of `create-plan-comparison-template.py`. -/
def header_fill : XPatternFill :=
  { start_color := "4472C4", end_color := "4472C4", fill_type := "solid" }

/-- Header font of `create-plan-comparison-template.py`. -/
def header_font : XFont := { bold := true, size := some 11, color := some "FFFFFF" }

/-- Header alignment of `create-plan-comparison-template.py`. -/
def header_alignment : XAlignment :=
  { horizontal := some "center", vertical := some "center", wrap_text := true }

/-- The thin four-sided border of `create-plan-comparison-template.py`. -/
def thinBorder : XBorder :=
  { left := { style := some "thin" }, right := { style := some "thin" },
    top := { style := some "thin" }, bottom := { style := some "thin" } }

/-- Data fill of `create-plan-comparison-template.py`. -/
def data_fill : XPatternFill :=
  { start_color := "E7E6E6", end_color := "E7E6E6", fill_type := "solid" }

/-- Data font of `create-plan-comparison-template.py`. -/
def data_font : XFont := { bold := false, size := some 10, color := none }

/-- Data alignment of `create-plan-comparison-template.py`. -/
def data_alignment : XAlignment :=
  { horizontal := some "center", vertical := some "center", wrap_text := true }

/-- The worksheet built by `create_comparison_template()`: sheet
"Comparison", widths A=25, spacers B/D/F=2, plan columns C/E/G=20, header
row 1 with "Benefit"/"Plan A"/"Plan B"/"Plan C" and empty-string spacers,
placeholder benefit rows 2..6, every populated cell bordered. -/
def comparisonTemplate : Worksheet :=
  let sheet := { emptyWorksheet with title := "Comparison" }
  let sheet := setWidth sheet 1 25
  let sheet := setWidth sheet 2 2
  let sheet := setWidth sheet 3 20
  let sheet := setWidth sheet 4 2
  let sheet := setWidth sheet 5 20
  let sheet := setWidth sheet 6 2
  let sheet := setWidth sheet 7 20
  let sheet := ((List.range' 1 7).zip
      ["Benefit", "", "Plan A", "", "Plan B", "", "Plan C"]).foldl
    (fun sheet p =>
      updateCell sheet p.1 1 fun cell =>
        let cell := { cell with value := some p.2 }
        let cell := if p.2 ≠ "" then
            { cell with fill := some header_fill, font := some header_font,
                        alignment := some header_alignment }
          else cell
        { cell with border := some thinBorder }) sheet
  ((List.range' 2 5).zip
      ["Benefit 1", "Benefit 2", "Benefit 3", "Benefit 4", "Benefit 5"]).foldl
    (fun sheet p =>
      let sheet := updateCell sheet 1 p.1 fun cell =>
        { cell with value := some p.2, fill := some data_fill, font := some data_font,
                    alignment := some { horizontal := some "left",
                                        vertical := some "center", wrap_text := false },
                    border := some thinBorder }
      (List.range' 2 6).foldl (fun sheet col =>
        updateCell sheet col p.1 fun cell =>
          let cell := if col % 2 = 0 then { cell with value := some "" }
            else { cell with value := some "", alignment := some data_alignment }
          { cell with border := some thinBorder }) sheet) sheet

/-- The exceptions the scripts can raise in this model. -/
inductive Exc where
  | importError
  | calledProcessError
  | fileNotFoundError
deriving DecidableEq

/-- An observable effect of a script run: directory creation, a pip install
subprocess, a workbook save, or a line printed to stdout. -/
inductive Effect where
  | makedirs (path : String) (exist_ok : Bool)
  | pipInstall (pkg : String)
  | saveFile (path : String) (wb : Worksheet)
  | printLine (s : String)

/-- Filesystem state: whether the templates output directory exists, and the
saved files as a path-keyed association list (saving overwrites). -/
structure FS where
  templatesDirExists : Bool
  files : List (String × Worksheet)

/-- Script environment: whether the spreadsheet library imports, whether the
on-demand pip install subprocess succeeds, and whether the library imports
after that install. -/
structure Env where
  openpyxlAvailable : Bool
  pipInstallSucceeds : Bool
  availableAfterInstall : Bool

/-- The result of a script run: its effect trace, the final filesystem
state, and the unhandled exception that terminated it, if any. -/
structure ScriptResult where
  trace : List Effect
  fs : FS
  exc : Option Exc

/-- One straight-line statement of a script body. -/
inductive Step where
  | print (s : String)
  | mkdirs (path : String)
  | save (path : String) (wb : Worksheet)

/-- Run a script body: prints append to the trace; `os.makedirs(...,
exist_ok=True)` makes the templates directory exist (tolerating an existing
one); `wb.save(path)` succeeds when the directory exists, overwriting any
prior file at `path`, and raises `FileNotFoundError` (terminating the run)
when it does not. -/
def runSteps : List Step → FS → List Effect → ScriptResult
  | [], fs, tr => { trace := tr, fs := fs, exc := none }
  | Step.print s :: rest, fs, tr =>
      runSteps rest fs (tr ++ [Effect.printLine s])
  | Step.mkdirs p :: rest, fs, tr =>
      runSteps rest { fs with templatesDirExists := true }
        (tr ++ [Effect.makedirs p true])
  | Step.save p wb :: rest, fs, tr =>
      if fs.templatesDirExists then
        runSteps rest
          { fs with files := (p, wb) :: fs.files.filter (fun e => e.1 != p) }
          (tr ++ [Effect.saveFile p wb])
      else { trace := tr, fs := fs, exc := some Exc.fileNotFoundError }

/-- The templates output directory both scripts write into. -/
def templatesDir : String := "src/main/resources/common-templates/templates"

/-- The sixty-character separator line `"=" * 60`. -/
def sepLine : String := String.mk (List.replicate 60 '=')

/-- The body of `create-excel-templates.py` after the imports: create the
templates directory, then build, save and announce each of the five
templates, then print the closing summary. -/
def batchSteps : List Step :=
  [Step.mkdirs templatesDir,
   Step.print "Creating personal-form.xlsx...",
   Step.save (templatesDir ++ "/personal-form.xlsx") personalForm,
   Step.print "✅ personal-form.xlsx created",
   Step.print "Creating employee-roster.xlsx...",
   Step.save (templatesDir ++ "/employee-roster.xlsx") employeeRoster,
   Step.print "✅ employee-roster.xlsx created",
   Step.print "Creating invoice-template.xlsx...",
   Step.save (templatesDir ++ "/invoice-template.xlsx") invoiceTemplate,
   Step.print "✅ invoice-template.xlsx created",
   Step.print "Creating template.xlsx...",
   Step.save (templatesDir ++ "/template.xlsx") genericTemplate,
   Step.print "✅ template.xlsx created",
   Step.print "Creating employee-table.xlsx...",
   Step.save (templatesDir ++ "/employee-table.xlsx") employeeTable,
   Step.print "✅ employee-table.xlsx created",
   Step.print ("\n" ++ sepLine),
   Step.print "✅ All sample Excel templates created successfully!",
   Step.print sepLine,
   Step.print "\nTemplates created in:",
   Step.print "  src/main/resources/common-templates/templates/",
   Step.print "\nFiles created:",
   Step.print "  - personal-form.xlsx",
   Step.print "  - employee-roster.xlsx",
   Step.print "  - invoice-template.xlsx",
   Step.print "  - template.xlsx",
   Step.print "  - employee-table.xlsx",
   Step.print "\nReady to use with Excel rendering examples!"]

/-- The body of `create_comparison_template()`: build the comparison
worksheet, save it, and announce the path. -/
def comparisonSteps : List Step :=
  [Step.save (templatesDir ++ "/comparison-template.xlsx") comparisonTemplate,
   Step.print ("✓ Created comparison template: " ++ templatesDir
     ++ "/comparison-template.xlsx")]

/-- `create-excel-templates.py` run as a process: the import is wrapped in
try/except catching only `ImportError`, whose handler prints, runs
`pip install openpyxl` (a failure of which raises `CalledProcessError`
unhandled) and retries the import (a second failure raises `ImportError`
unhandled); on successful import the body runs.  `argv` and `environ` are
the process arguments and environment variables, which the script never
reads. -/
def runBatch (_argv : List String) (_environ : List (String × String))
    (env : Env) (fs0 : FS) : ScriptResult :=
  if env.openpyxlAvailable then
    runSteps batchSteps fs0 []
  else
    let tr := [Effect.printLine "Installing openpyxl...", Effect.pipInstall "openpyxl"]
    if env.pipInstallSucceeds then
      if env.availableAfterInstall then
        runSteps batchSteps fs0 tr
      else { trace := tr, fs := fs0, exc := some Exc.importError }
    else { trace := tr, fs := fs0, exc := some Exc.calledProcessError }

/-- `create-plan-comparison-template.py` run as a process: the bare
`import openpyxl` raises `ImportError` unhandled when the library is
missing (there is no try/except in this script); otherwise the body runs.
`argv` and `environ` are the process arguments and environment variables,
which the script never reads. -/
def runComparison (_argv : List String) (_environ : List (String × String))
    (env : Env) (fs0 : FS) : ScriptResult :=
  if env.openpyxlAvailable then
    runSteps comparisonSteps fs0 []
  else { trace := [], fs := fs0, exc := some Exc.importError }

/-- The files a run saved, as (path, sheet title) pairs in save order. -/
def savedFiles (t : List Effect) : List (String × String) :=
  t.filterMap fun e => match e with
    | Effect.saveFile p wb => some (p, wb.title)
    | _ => none

/-- Whether the trace contains a directory-creation effect. -/
def hasMakedirs (t : List Effect) : Bool :=
  t.any fun e => match e with
    | Effect.makedirs _ _ => true
    | _ => false

/-- Whether the trace contains a pip-install subprocess effect. -/
def hasPipInstall (t : List Effect) : Bool :=
  t.any fun e => match e with
    | Effect.pipInstall _ => true
    | _ => false

/-- Whether an effect touches only an output file or stdout. -/
def fileOrStdoutOnly (e : Effect) : Bool :=
  match e with
  | Effect.saveFile _ _ => true
  | Effect.printLine _ => true
  | _ => false

/-- C1: running the Template Batch Generator saves exactly five files, at
the five fixed paths under the templates directory, with sheet names
"Personal Info", "Employees", "Invoice", "Data", "Roster" respectively, and
the five paths are pairwise distinct. -/
theorem batch_produces_five_files (argv : List String)
    (environ : List (String × String)) (env : Env) (fs : FS)
    (h : env.openpyxlAvailable = true) :
    savedFiles (runBatch argv environ env fs).trace =
      [(templatesDir ++ "/personal-form.xlsx", "Personal Info"),
       (templatesDir ++ "/employee-roster.xlsx", "Employees"),
       (templatesDir ++ "/invoice-template.xlsx", "Invoice"),
       (templatesDir ++ "/template.xlsx", "Data"),
       (templatesDir ++ "/employee-table.xlsx", "Roster")] ∧
    ((savedFiles (runBatch argv environ env fs).trace).map Prod.fst).Nodup := by
  rcases env with ⟨a, p, q⟩
  obtain rfl : a = true := h
  refine ⟨rfl, ?_⟩
  have hmap : ((savedFiles (runBatch argv environ
      ⟨true, p, q⟩ fs).trace).map Prod.fst) =
      [templatesDir ++ "/personal-form.xlsx",
       templatesDir ++ "/employee-roster.xlsx",
       templatesDir ++ "/invoice-template.xlsx",
       templatesDir ++ "/template.xlsx",
       templatesDir ++ "/employee-table.xlsx"] := rfl
  rw [hmap]
  decide

/-- Witness for `batch_produces_five_files` at a concrete environment. -/
theorem batch_produces_five_files_witness :
    savedFiles (runBatch [] [] ⟨true, true, true⟩ ⟨false, []⟩).trace =
      [(templatesDir ++ "/personal-form.xlsx", "Personal Info"),
       (templatesDir ++ "/employee-roster.xlsx", "Employees"),
       (templatesDir ++ "/invoice-template.xlsx", "Invoice"),
       (templatesDir ++ "/template.xlsx", "Data"),
       (templatesDir ++ "/employee-table.xlsx", "Roster")] ∧
    ((savedFiles (runBatch [] [] ⟨true, true, true⟩ ⟨false, []⟩).trace).map
      Prod.fst).Nodup :=
  batch_produces_five_files [] [] ⟨true, true, true⟩ ⟨false, []⟩ rfl

/-- C2: every header cell of the five batch templates holds its literal
text at its literal position; in particular A1 of the employee-roster sheet
(titled "Employees") is "Employee ID", while the employee-table sheet
(titled "Roster") has "Employee Information" at A1 and its headers at
row 2. -/
theorem header_cells_literal :
    personalForm.title = "Personal Info" ∧
    (personalForm.cells 1 1).value = some "First Name" ∧
    (personalForm.cells 2 1).value = some "Last Name" ∧
    (personalForm.cells 3 1).value = some "Email" ∧
    employeeRoster.title = "Employees" ∧
    (employeeRoster.cells 1 1).value = some "Employee ID" ∧
    (employeeRoster.cells 2 1).value = some "First Name" ∧
    (employeeRoster.cells 3 1).value = some "Last Name" ∧
    (employeeRoster.cells 4 1).value = some "Email" ∧
    (employeeRoster.cells 5 1).value = some "Department" ∧
    invoiceTemplate.title = "Invoice" ∧
    (invoiceTemplate.cells 1 1).value = some "INVOICE" ∧
    (invoiceTemplate.cells 1 3).value = some "Invoice #" ∧
    (invoiceTemplate.cells 3 3).value = some "Invoice Date" ∧
    (invoiceTemplate.cells 1 4).value = some "Due Date" ∧
    (invoiceTemplate.cells 3 4).value = some "Customer" ∧
    (invoiceTemplate.cells 1 6).value = some "Description" ∧
    (invoiceTemplate.cells 2 6).value = some "Quantity" ∧
    (invoiceTemplate.cells 3 6).value = some "Unit Price" ∧
    (invoiceTemplate.cells 4 6).value = some "Total" ∧
    (invoiceTemplate.cells 1 28).value = some "Subtotal" ∧
    (invoiceTemplate.cells 1 29).value = some "Tax" ∧
    (invoiceTemplate.cells 1 30).value = some "TOTAL" ∧
    genericTemplate.title = "Data" ∧
    (genericTemplate.cells 1 1).value = some "Item Names" ∧
    (genericTemplate.cells 2 1).value = some "Item Prices" ∧
    (genericTemplate.cells 3 1).value = some "Item Code" ∧
    (genericTemplate.cells 2 10).value = some "Header 1" ∧
    (genericTemplate.cells 3 10).value = some "Header 2" ∧
    (genericTemplate.cells 4 10).value = some "Header 3" ∧
    (genericTemplate.cells 5 10).value = some "Header 4" ∧
    (genericTemplate.cells 1 12).value = some "Matrix Example" ∧
    employeeTable.title = "Roster" ∧
    (employeeTable.cells 1 1).value = some "Employee Information" ∧
    (employeeTable.cells 1 2).value = some "ID" ∧
    (employeeTable.cells 2 2).value = some "Name" ∧
    (employeeTable.cells 3 2).value = some "Department" ∧
    (employeeTable.cells 4 2).value = some "Salary" := by
  decide

/-- C3: running the Comparison Template Generator saves exactly one file,
`comparison-template.xlsx` with sheet "Comparison", whose benefit column A
has width 25, spacer columns B, D, F width 2, plan columns C, E, G width
20, and whose header row holds "Benefit", "Plan A", "Plan B", "Plan C" in
columns A, C, E, G with empty strings in the spacer columns. -/
theorem comparison_single_file_layout (argv : List String)
    (environ : List (String × String)) (env : Env) (fs : FS)
    (h1 : env.openpyxlAvailable = true) (h2 : fs.templatesDirExists = true) :
    savedFiles (runComparison argv environ env fs).trace =
      [(templatesDir ++ "/comparison-template.xlsx", "Comparison")] ∧
    comparisonTemplate.title = "Comparison" ∧
    comparisonTemplate.colWidths 1 = some 25 ∧
    comparisonTemplate.colWidths 2 = some 2 ∧
    comparisonTemplate.colWidths 3 = some 20 ∧
    comparisonTemplate.colWidths 4 = some 2 ∧
    comparisonTemplate.colWidths 5 = some 20 ∧
    comparisonTemplate.colWidths 6 = some 2 ∧
    comparisonTemplate.colWidths 7 = some 20 ∧
    (comparisonTemplate.cells 1 1).value = some "Benefit" ∧
    (comparisonTemplate.cells 3 1).value = some "Plan A" ∧
    (comparisonTemplate.cells 5 1).value = some "Plan B" ∧
    (comparisonTemplate.cells 7 1).value = some "Plan C" ∧
    (comparisonTemplate.cells 2 1).value = some "" ∧
    (comparisonTemplate.cells 4 1).value = some "" ∧
    (comparisonTemplate.cells 6 1).value = some "" := by
  rcases env with ⟨a, p, q⟩
  rcases fs with ⟨d, files⟩
  obtain rfl : a = true := h1
  obtain rfl : d = true := h2
  exact ⟨rfl, by decide⟩

/-- Witness for `comparison_single_file_layout` at a concrete
environment. -/
theorem comparison_single_file_layout_witness :
    savedFiles (runComparison [] [] ⟨true, true, true⟩ ⟨true, []⟩).trace =
      [(templatesDir ++ "/comparison-template.xlsx", "Comparison")] ∧
    comparisonTemplate.title = "Comparison" ∧
    comparisonTemplate.colWidths 1 = some 25 ∧
    comparisonTemplate.colWidths 2 = some 2 ∧
    comparisonTemplate.colWidths 3 = some 20 ∧
    comparisonTemplate.colWidths 4 = some 2 ∧
    comparisonTemplate.colWidths 5 = some 20 ∧
    comparisonTemplate.colWidths 6 = some 2 ∧
    comparisonTemplate.colWidths 7 = some 20 ∧
    (comparisonTemplate.cells 1 1).value = some "Benefit" ∧
    (comparisonTemplate.cells 3 1).value = some "Plan A" ∧
    (comparisonTemplate.cells 5 1).value = some "Plan B" ∧
    (comparisonTemplate.cells 7 1).value = some "Plan C" ∧
    (comparisonTemplate.cells 2 1).value = some "" ∧
    (comparisonTemplate.cells 4 1).value = some "" ∧
    (comparisonTemplate.cells 6 1).value = some "" :=
  comparison_single_file_layout [] [] ⟨true, true, true⟩ ⟨true, []⟩ rfl rfl

/-- C4 counterexample: in the Comparison Template Generator the absence of
the spreadsheet library is NOT a handled failure — with the library missing
the run terminates with an unhandled `ImportError` and no install-and-retry
fallback runs (no pip-install effect appears in the trace), contrary to the
claim that every script handles library absence with such a fallback. -/
theorem comparison_import_not_handled :
    (runComparison [] [] ⟨false, true, true⟩ ⟨true, []⟩).exc
      = some Exc.importError ∧
    hasPipInstall (runComparison [] [] ⟨false, true, true⟩ ⟨true, []⟩).trace
      = false := by
  decide

/-- C4 amended: in the batch generator the only handled failure is library
absence, whose handler installs and retries (and recovers when the
retried import succeeds, still saving all five files); a failing
pip install, or a failing retried import, propagates unhandled; the comparison
generator handles no failure, so library absence propagates there as an
unhandled `ImportError` with no fallback; every other failure (e.g. a
missing output directory) propagates unhandled in both scripts. -/
theorem error_handling_per_script :
    (runBatch [] [] ⟨false, true, true⟩ ⟨true, []⟩).exc = none ∧
    hasPipInstall (runBatch [] [] ⟨false, true, true⟩ ⟨true, []⟩).trace = true ∧
    (savedFiles (runBatch [] [] ⟨false, true, true⟩ ⟨true, []⟩).trace).length = 5 ∧
    (runBatch [] [] ⟨false, false, true⟩ ⟨true, []⟩).exc
      = some Exc.calledProcessError ∧
    (runBatch [] [] ⟨false, true, false⟩ ⟨true, []⟩).exc
      = some Exc.importError ∧
    (runComparison [] [] ⟨false, true, true⟩ ⟨true, []⟩).exc
      = some Exc.importError ∧
    hasPipInstall (runComparison [] [] ⟨false, true, true⟩ ⟨true, []⟩).trace
      = false ∧
    (runComparison [] [] ⟨true, true, true⟩ ⟨false, []⟩).exc
      = some Exc.fileNotFoundError := by
  decide

/-- C5: each script is deterministic and idempotent — re-running it on the
filesystem a first run left behind produces the identical effect trace
(hence identical workbook contents saved at the same paths) and leaves the
identical set of saved files, for every library-availability environment
and whether or not the templates directory pre-existed. -/
theorem rerun_idempotent (env : Env) (d : Bool) :
    ((runBatch [] [] env ((runBatch [] [] env ⟨d, []⟩).fs)).trace
       = (runBatch [] [] env ⟨d, []⟩).trace ∧
     (runBatch [] [] env ((runBatch [] [] env ⟨d, []⟩).fs)).fs.files
       = (runBatch [] [] env ⟨d, []⟩).fs.files) ∧
    ((runComparison [] [] env ((runComparison [] [] env ⟨d, []⟩).fs)).trace
       = (runComparison [] [] env ⟨d, []⟩).trace ∧
     (runComparison [] [] env ((runComparison [] [] env ⟨d, []⟩).fs)).fs.files
       = (runComparison [] [] env ⟨d, []⟩).fs.files) := by
  rcases env with ⟨a, p, q⟩
  cases a <;> cases p <;> cases q <;> cases d <;> exact ⟨⟨rfl, rfl⟩, rfl, rfl⟩

/-- C6: `style_data` applied with its default empty-string value sets only
the alignment and leaves the cell's value unchanged (in particular unset),
so in the batch templates the data cells of the hardcoded ranges — rows
2..9 of columns A..C in personal-form and rows 2..51 of columns A..E in
employee-roster — carry no value, only the left/center data alignment. -/
theorem data_cells_blank :
    (∀ ws : Worksheet, ∀ c r : Nat,
      ((style_data ws c r "").cells c r).value = (ws.cells c r).value) ∧
    (∀ r ∈ List.range' 2 8, ∀ c ∈ [1, 2, 3],
      (personalForm.cells c r).value = none ∧
      (personalForm.cells c r).alignment
        = some ⟨some "left", some "center", false⟩) ∧
    (∀ r ∈ List.range' 2 50, ∀ c ∈ [1, 2, 3, 4, 5],
      (employeeRoster.cells c r).value = none ∧
      (employeeRoster.cells c r).alignment
        = some ⟨some "left", some "center", false⟩) := by
  refine ⟨?_, by decide, by decide⟩
  intro ws c r
  simp [style_data, updateCell]

/-- Witness for `data_cells_blank` at concrete cells. -/
theorem data_cells_blank_witness :
    ((style_data emptyWorksheet 1 2 "").cells 1 2).value
      = (emptyWorksheet.cells 1 2).value ∧
    (personalForm.cells 1 2).value = none ∧
    (employeeRoster.cells 5 51).value = none :=
  ⟨data_cells_blank.1 emptyWorksheet 1 2,
   (data_cells_blank.2.1 2 (by decide) 1 (by decide)).1,
   (data_cells_blank.2.2 51 (by decide) 5 (by decide)).1⟩

/-- C7 counterexample: a normal run of the batch generator (library
present) performs a directory-creation effect, and a run with the library
missing spawns a pip-install subprocess — filesystem and process state
beyond the output file handles, contrary to the claim that the only
resource touched is the output file handle. -/
theorem batch_touches_directory :
    hasMakedirs (runBatch [] [] ⟨true, true, true⟩ ⟨false, []⟩).trace = true ∧
    hasPipInstall (runBatch [] [] ⟨false, true, true⟩ ⟨false, []⟩).trace = true := by
  decide

/-- C7 amended: besides stdout prints, the comparison script touches only
its single output file; the batch script additionally creates the templates
directory on every run (and, when the library is missing, runs a pip
install), and otherwise touches only its five output files, one save
each. -/
theorem resources_touched :
    ((runComparison [] [] ⟨true, true, true⟩ ⟨true, []⟩).trace.all
      fileOrStdoutOnly) = true ∧
    (savedFiles (runComparison [] [] ⟨true, true, true⟩ ⟨true, []⟩).trace).length
      = 1 ∧
    ((runBatch [] [] ⟨true, true, true⟩ ⟨true, []⟩).trace.all fun e =>
      fileOrStdoutOnly e || hasMakedirs [e]) = true ∧
    (savedFiles (runBatch [] [] ⟨true, true, true⟩ ⟨true, []⟩).trace).length
      = 5 ∧
    hasPipInstall (runBatch [] [] ⟨true, true, true⟩ ⟨true, []⟩).trace
      = false := by
  decide

/-- C8: neither script consumes command-line arguments or environment
variables — two invocations differing only in argv or environ produce
identical results (trace, filesystem, exception), for either script. -/
theorem no_argv_environ_dependence (a1 a2 : List String)
    (e1 e2 : List (String × String)) (env : Env) (fs : FS) :
    runBatch a1 e1 env fs = runBatch a2 e2 env fs ∧
    runComparison a1 e1 env fs = runComparison a2 e2 env fs :=
  ⟨rfl, rfl⟩

/-- C9: every cell of the populated region of the comparison template
(rows 1..6, columns A..G) carries the thin border on all four sides, and
the spacer-column cells (B, D, F) carry no fill, font or alignment. -/
theorem comparison_borders :
    (∀ c ∈ List.range' 1 7, ∀ r ∈ List.range' 1 6,
      (comparisonTemplate.cells c r).border = some thinBorder) ∧
    (∀ r ∈ List.range' 1 6, ∀ c ∈ [2, 4, 6],
      (comparisonTemplate.cells c r).fill = none ∧
      (comparisonTemplate.cells c r).font = none ∧
      (comparisonTemplate.cells c r).alignment = none) := by
  refine ⟨by decide, by decide⟩

/-- Witness for `comparison_borders` at concrete cells. -/
theorem comparison_borders_witness :
    (comparisonTemplate.cells 1 1).border = some thinBorder ∧
    (comparisonTemplate.cells 4 3).fill = none :=
  ⟨comparison_borders.1 1 (by decide) 1 (by decide),
   (comparison_borders.2 3 (by decide) 4 (by decide)).1⟩

/-- C10: whenever the library imports, the batch generator creates the
templates directory (tolerating an existing one) as its very first effect,
before any save, and finishes without an exception whether or not the
directory pre-existed; the comparison generator performs no directory
creation, and with the templates directory absent its save raises
`FileNotFoundError` and the run saves nothing. -/
theorem directory_creation (env : Env) (d : Bool)
    (files : List (String × Worksheet)) (h : env.openpyxlAvailable = true) :
    ((runBatch [] [] env ⟨d, files⟩).exc = none ∧
     (runBatch [] [] env ⟨d, files⟩).trace.head?
       = some (Effect.makedirs templatesDir true)) ∧
    ((runComparison [] [] env ⟨false, files⟩).exc = some Exc.fileNotFoundError ∧
     hasMakedirs (runComparison [] [] env ⟨false, files⟩).trace = false ∧
     savedFiles (runComparison [] [] env ⟨false, files⟩).trace = []) := by
  rcases env with ⟨a, p, q⟩
  obtain rfl : a = true := h
  cases d <;> exact ⟨⟨rfl, rfl⟩, rfl, rfl, rfl⟩

/-- Witness for `directory_creation` at a concrete environment. -/
theorem directory_creation_witness :
    ((runBatch [] [] ⟨true, true, true⟩ ⟨false, []⟩).exc = none ∧
     (runBatch [] [] ⟨true, true, true⟩ ⟨false, []⟩).trace.head?
       = some (Effect.makedirs templatesDir true)) ∧
    ((runComparison [] [] ⟨true, true, true⟩ ⟨false, []⟩).exc
       = some Exc.fileNotFoundError ∧
     hasMakedirs (runComparison [] [] ⟨true, true, true⟩ ⟨false, []⟩).trace
       = false ∧
     savedFiles (runComparison [] [] ⟨true, true, true⟩ ⟨false, []⟩).trace
       = []) :=
  directory_creation ⟨true, true, true⟩ false [] rfl
